import Mathlib

/-!
Verification of the collision / level-transition core of the `game2` repository.

The embedding follows `src/main.rs` (the maze prototype with level transitions):
the data model (`Rect`, `Mobile`, `Wall`, `Level`, `GameState`, `Mode`), the
per-step update function `update_game`, the concrete level data built in `main`,
and the fixed-timestep driver of the event loop.  The `collision` module itself
(`rect_touching` and the `Rect` arithmetic) is not present in the sources, so it
is modelled from the specification (§4.1).  Fallible array indexing
(`state.levels[i]`, `state.textures[i]`) is embedded as `Option`; a `none`
result marks the panic branch of the original code.
-/

namespace Game2

/-- AABB with signed origin and extents.  Mirrors `collision::Rect` as used by
`main.rs` (`x, y` are `i32`; `w, h` are `u16` widened for the comparisons).
Integer arithmetic is modelled on `Int`, wide enough per spec §4.1. -/
structure Rect where
  x : Int
  y : Int
  w : Int
  h : Int
deriving DecidableEq

/-- Dynamic body: mirrors `collision::Mobile` (`rect`, `vx`, `vy`). -/
structure Mobile where
  rect : Rect
  vx : Int
  vy : Int
deriving DecidableEq

/-- Static obstacle: mirrors `collision::Wall`. -/
structure Wall where
  rect : Rect
deriving DecidableEq

/-- Mirrors `struct Level { gamemap: Vec<Wall>, exit: collision::Rect, position: Vec2i }`. -/
structure Level where
  gamemap : List Wall
  exit : Rect
  position : Int × Int
deriving DecidableEq

/-- Mirrors `enum Mode { TitleScreen, GamePlay, EndGame }`. -/
inductive Mode where
  | TitleScreen
  | GamePlay
  | EndGame
deriving DecidableEq

/-- Mirrors `struct GameState`.  Textures are embedded as opaque handles
(their pixel content plays no role in the update rules); the `sprites` field
is pure render plumbing and carries no game rule, so it is not modelled. -/
structure GameState where
  player : Mobile
  textures : List Nat
  levels : List Level
  current_level : Nat
  mode : Mode
deriving DecidableEq

/-- Per-step input snapshot: `key_held` state of the keys `update_game` reads. -/
structure Input where
  space : Bool
  right : Bool
  left : Bool
  up : Bool
  down : Bool
  p : Bool
deriving DecidableEq

/-- A `screen.bitblt` call recorded by the step: texture handle, source
rectangle, destination position.  A step that issues no blit leaves the
frame buffer untouched. -/
structure Blit where
  texture : Nat
  src : Rect
  dest : Int × Int
deriving DecidableEq

/-- Modelled from the spec: `collision::rect_touching` is declared in the
missing `collision` module.  Spec §4.1: true iff projections overlap on both
axes using inclusive comparisons (`r1.x ≤ r2.x+r2.w && r2.x ≤ r1.x+r1.w`,
symmetric for y); edge-adjacent rectangles count as touching. -/
def rect_touching (r1 r2 : Rect) : Bool :=
  decide (r1.x ≤ r2.x + r2.w ∧ r2.x ≤ r1.x + r1.w ∧
          r1.y ≤ r2.y + r2.h ∧ r2.y ≤ r1.y + r1.h)

/-- Player control of `update_game` (GamePlay branch): each held arrow key
adds or subtracts one pixel on the corresponding axis. -/
def movePlayer (r : Rect) (inp : Input) : Rect :=
  let r1 := if inp.right then { r with x := r.x + 1 } else r
  let r2 := if inp.left then { r1 with x := r1.x - 1 } else r1
  let r3 := if inp.up then { r2 with y := r2.y - 1 } else r2
  let r4 := if inp.down then { r3 with y := r3.y + 1 } else r3
  r4

/-- One simulation step: `fn update_game` of `main.rs`.  Returns the new state
together with the list of `bitblt` calls the step issued; `none` is the panic
of an out-of-bounds `Vec` index.
  * TitleScreen: space starts the game.
  * GamePlay: apply input to the player rect; if the moved rect touches any
    wall of the current level, reset `current_level` to 0 and teleport the
    player to (170, 500); then, if the (possibly reset) rect touches the
    current level's exit, increment the level index and move the player to the
    new level's `position`.
  * EndGame: holding P blits `textures[1]` to the screen. -/
def update_game (s : GameState) (inp : Input) : Option (GameState × List Blit) :=
  match s.mode with
  | Mode.TitleScreen =>
      if inp.space then some ({ s with mode := Mode.GamePlay }, []) else some (s, [])
  | Mode.GamePlay =>
      let moved := movePlayer s.player.rect inp
      match s.levels.get? s.current_level with
      | none => none
      | some lvl =>
        let hit := lvl.gamemap.any (fun w => rect_touching moved w.rect)
        let cur1 := if hit then 0 else s.current_level
        let r5 := if hit then { moved with x := 170, y := 500 } else moved
        match s.levels.get? cur1 with
        | none => none
        | some lvl1 =>
          if rect_touching r5 lvl1.exit then
            match s.levels.get? (cur1 + 1) with
            | none => none
            | some lvl2 =>
              some ({ s with
                        player := { s.player with
                                      rect := { r5 with x := lvl2.position.1,
                                                        y := lvl2.position.2 } },
                        current_level := cur1 + 1 }, [])
          else
            some ({ s with player := { s.player with rect := r5 },
                           current_level := cur1 }, [])
  | Mode.EndGame =>
      if inp.p then
        match s.textures.get? 1 with
        | none => none
        | some t => some (s, [⟨t, ⟨0, 0, 100, 100⟩, (0, 0)⟩])
      else some (s, [])

/-! Concrete level data built in `main` (WIDTH = 269, HEIGHT = 187). -/

/-- `walls1` of `main`. -/
def walls1 : List Wall :=
  [ ⟨⟨0, 0, 269, 100⟩⟩,
    ⟨⟨0, 0, 150, 187⟩⟩,
    ⟨⟨269 / 3 * 2, 0, 269 / 3, 187⟩⟩,
    ⟨⟨0, 187 - 16, 269, 16⟩⟩,
    ⟨⟨269 / 2, 187 / 2, 150, 300⟩⟩ ]

/-- `walls2` of `main`. -/
def walls2 : List Wall :=
  [ ⟨⟨0, 0, 269, 0⟩⟩,
    ⟨⟨0, 0, 90, 187⟩⟩,
    ⟨⟨269 - 26, 0, 90, 187⟩⟩,
    ⟨⟨0, 187 - 30, 269, 70⟩⟩,
    ⟨⟨220, 90, 269, 70⟩⟩,
    ⟨⟨0, 240, 269 - 90, 70⟩⟩,
    ⟨⟨220, 390, 269, 70⟩⟩ ]

/-- `walls3` of `main`. -/
def walls3 : List Wall :=
  [ ⟨⟨0, 187 - 50, 269, 50⟩⟩,
    ⟨⟨269 - 150, 0, 150, 187⟩⟩,
    ⟨⟨0, 0, 100, 187⟩⟩,
    ⟨⟨0, 0, 269, 50⟩⟩,
    ⟨⟨100, 187 - 150, 269 / 3 + 150, 50⟩⟩,
    ⟨⟨100 + 50, 187 - 350, 269 / 3 + 200, 150⟩⟩,
    ⟨⟨100, 50, 269 / 3, 100⟩⟩,
    ⟨⟨100 + 269 / 3, 187 - 375, 269 / 3 + 100, 25⟩⟩,
    ⟨⟨269 / 3 * 2 - 50, 50, 269 / 3 + 50, 150⟩⟩,
    ⟨⟨100 + 269 / 3, 125, 50, 25⟩⟩,
    ⟨⟨130 + 269 / 3, 93, 60, 3⟩⟩,
    ⟨⟨100 + 269 / 3, 50, 40, 15⟩⟩ ]

/-- `level` of `main`. -/
def level1 : Level :=
  ⟨walls1, ⟨269 / 2 + 50, 100, 68, 175⟩, (170, 170)⟩

/-- `level2` of `main`. -/
def level2 : Level :=
  ⟨walls2, ⟨269 - 50, 460, 30, 60⟩, (269 - 55, 15)⟩

/-- `level3` of `main`. -/
def level3 : Level :=
  ⟨walls3, ⟨373, 50, 43, 10⟩, (110, 463)⟩

/-- The level list `vec![level, level2, level3]` of `main`. -/
def gameLevels : List Level := [level1, level2, level3]

/-- The initial `GameState` built in `main`. -/
def initState : GameState :=
  { player := { rect := ⟨170, 500, 11, 11⟩, vx := 0, vy := 0 },
    textures := [0, 1],
    levels := gameLevels,
    current_level := 0,
    mode := Mode.TitleScreen }

/-- Input snapshot with no key held. -/
def noInput : Input := ⟨false, false, false, false, false, false⟩

/-- Input snapshot with only Down held. -/
def downInput : Input := ⟨false, false, false, false, true, false⟩

/-- Input snapshot with only P held. -/
def pInput : Input := ⟨false, false, false, false, false, true⟩

/-- GamePlay state on level 1 with the player inside the left wall of
`walls2` (rect ⟨50, 50, 11, 11⟩ overlaps wall ⟨0, 0, 90, 187⟩ deeply). -/
def c1State : GameState :=
  { initState with mode := Mode.GamePlay, current_level := 1,
                   player := ⟨⟨50, 50, 11, 11⟩, 0, 0⟩ }

/-- The state produced by one step from `c1State` with no input. -/
def c1Result : GameState :=
  { c1State with player := { c1State.player with rect := ⟨170, 500, 11, 11⟩ },
                 current_level := 0 }

/-- GamePlay state on level 1 with the player overlapping `level2`'s exit
⟨219, 460, 30, 60⟩ and touching no wall of `walls2`. -/
def c2State : GameState :=
  { initState with mode := Mode.GamePlay, current_level := 1,
                   player := ⟨⟨225, 470, 11, 11⟩, 0, 0⟩ }

/-- The state produced by one step from `c2State` with no input. -/
def c2Result : GameState :=
  { c2State with player := { c2State.player with rect := ⟨110, 463, 11, 11⟩ },
                 current_level := 2 }

/-- GamePlay state at the start of the game (level 0, player at the initial
position ⟨170, 500, 11, 11⟩). -/
def c4State : GameState := { initState with mode := Mode.GamePlay }

/-- GamePlay state on the last level (index 2) with the player overlapping
`level3`'s exit ⟨373, 50, 43, 10⟩ and touching no wall of `walls3`. -/
def c7State : GameState :=
  { initState with mode := Mode.GamePlay, current_level := 2,
                   player := ⟨⟨380, 55, 11, 11⟩, 0, 0⟩ }

/-- Single-level world realizing spec scenario A: a 16×16 player above the
wall ⟨0, 534, 700, 16⟩; the exit is far away. -/
def c8Level : Level := ⟨[⟨⟨0, 534, 700, 16⟩⟩], ⟨1000, 1000, 5, 5⟩, (0, 0)⟩

/-- Scenario A state: player ⟨170, 519, 16, 16⟩ one pixel above 2px predicted
overlap with the wall when moving +y. -/
def c8State : GameState :=
  { player := ⟨⟨170, 519, 16, 16⟩, 0, 0⟩,
    textures := [0, 1],
    levels := [c8Level],
    current_level := 0,
    mode := Mode.GamePlay }

/-- EndGame-mode state (reachable render state of `main`). -/
def endState : GameState := { initState with mode := Mode.EndGame }

/-- The blit issued by the EndGame branch when P is held. -/
def endBlit : Blit := ⟨1, ⟨0, 0, 100, 100⟩, (0, 0)⟩

/-! The fixed-timestep driver of the event loop (`main`): an accumulator
`available_time` of unconsumed real time and a `frame_count` of executed
simulation steps.  In the shipped code the accumulator feed
`available_time += since.elapsed().as_secs_f64()` sits inside the block
comment that disables the whole redraw body (it opens right after the
`//Draw the walls` line and closes only after the feed), so the live loop
never adds time to the accumulator: only the consuming while-loop remains.
The `f64` values are modelled over `ℚ`; the theorem below uses only the
sign of the accumulator (0) against `DT > 0`, on which `f64` rounding has
no bearing. -/

/-- Seconds per frame: `const DT: f64 = 1.0 / 60.0`, modelled as the exact
rational.  Only `0 < DT` is used below, which holds of the `f64` value too. -/
def DT : ℚ := 1 / 60

/-- The inner `while available_time >= DT` loop: repeatedly subtract `DT`
and run one simulation step.  Returns the remaining accumulator and the
number of steps executed. -/
def consume (acc : ℚ) : ℚ × Nat :=
  if h : DT ≤ acc then
    let r := consume (acc - DT)
    (r.1, r.2 + 1)
  else (acc, 0)
termination_by (⌊acc / DT⌋).toNat
decreasing_by
  have hDT : (0 : ℚ) < DT := by norm_num [DT]
  have h1 : (1 : ℚ) ≤ acc / DT := (one_le_div hDT).mpr h
  have h2 : (1 : ℤ) ≤ ⌊acc / DT⌋ := Int.le_floor.mpr (by exact_mod_cast h1)
  have h3 : (acc - DT) / DT = acc / DT - 1 := by field_simp
  simp only [h3, Int.floor_sub_one]
  omega

/-- One host tick of the live event loop.  The tick's elapsed real time `t`
is measured (`since.elapsed()`) but never added to the accumulator, because
the feed `available_time += since.elapsed().as_secs_f64()` is commented out
together with the drawing code; only the consuming while-loop runs, with
`frame_count` incremented once per executed step. -/
def tick (st : ℚ × Nat) (_t : ℚ) : ℚ × Nat :=
  let r := consume st.1
  (r.1, st.2 + r.2)

/-- The driver across a sequence of host ticks, starting from an empty
accumulator and frame count 0. -/
def run_ticks (ts : List ℚ) : ℚ × Nat :=
  ts.foldl tick (0, 0)

/-- A concrete tick sequence of per-tick elapsed times (in seconds),
summing to 3 s = 180 · DT. -/
def ticksExample : List ℚ := [1, 0, 2]

/-- C9: the AABB touching test is symmetric: for every pair of rectangles,
`rect_touching r1 r2 = rect_touching r2 r1` (inclusive comparisons on both
axis projections). -/
theorem c9_rect_touching_symm (r1 r2 : Rect) :
    rect_touching r1 r2 = rect_touching r2 r1 := by
  simp only [rect_touching, decide_eq_decide]
  constructor
  · rintro ⟨a, b, c, d⟩; exact ⟨b, a, d, c⟩
  · rintro ⟨a, b, c, d⟩; exact ⟨b, a, d, c⟩

/-- Helper: `movePlayer` only changes the rect's origin, never its extents. -/
theorem movePlayer_shape (r : Rect) (inp : Input) :
    ∃ a b : Int, movePlayer r inp = ⟨a, b, r.w, r.h⟩ := by
  rcases inp with ⟨sp, ri, le, up, dn, pp⟩
  cases ri <;> cases le <;> cases up <;> cases dn <;> exact ⟨_, _, rfl⟩

/-- C6: the step is deterministic: identical world states and identical input
snapshots give identical results of `update_game`. -/
theorem c6_step_deterministic (s1 s2 : GameState) (i1 i2 : Input)
    (hs : s1 = s2) (hi : i1 = i2) :
    update_game s1 i1 = update_game s2 i2 := by
  subst hs; subst hi; rfl

/-- Witness for C6 at the initial state with no input. -/
theorem c6_witness : update_game initState noInput = update_game initState noInput :=
  c6_step_deterministic initState initState noInput noInput rfl rfl

/-- C7: touching the exit of the last level increments the level index past
the last valid index; the subsequent `state.levels[current_level]` lookup is
out of bounds, so the embedded step hits its error branch (`none`). -/
theorem c7_last_exit_out_of_bounds :
    rect_touching c7State.player.rect level3.exit = true ∧
    (walls3.any fun w => rect_touching c7State.player.rect w.rect) = false ∧
    c7State.current_level + 1 = gameLevels.length ∧
    update_game c7State noInput = none :=
  ⟨rfl, rfl, rfl, rfl⟩

/-- C8 counterexample: in spec scenario A the code does not separate the
player along the minimum-penetration axis; it teleports the player to the
fixed respawn, so post-step `player.y = 500`, not `wall.y - 16 = 518`. -/
theorem c8_cex :
    (update_game c8State downInput).map (fun p => p.1.player.rect.y) = some 500 ∧
    (500 : Int) ≠ 534 - 16 :=
  ⟨rfl, by decide⟩

/-- C8 amended: in scenario A the step resets the player to the fixed respawn
(170, 500) and sets `current_level` to 0 (the wall contact is answered by a
teleport, not by minimum-translation separation). -/
theorem c8_wall_contact_teleports :
    update_game c8State downInput =
      some ({ c8State with
                player := { c8State.player with rect := ⟨170, 500, 16, 16⟩ } }, []) :=
  rfl

/-- C5 counterexample: the step does write pixels in EndGame mode: with P held
it issues a `bitblt` of `textures[1]`, so the frame buffer is not untouched
for every state and input. -/
theorem c5_cex :
    update_game endState pInput = some (endState, [endBlit]) ∧
    ([endBlit] : List Blit) ≠ [] :=
  ⟨rfl, by decide⟩

/-- C5 amended: in TitleScreen and GamePlay modes the step issues no blit:
the frame buffer is untouched and only the state snapshot changes. -/
theorem c5_no_blit_outside_endgame (s : GameState) (inp : Input)
    (s' : GameState) (bl : List Blit)
    (hm : s.mode = Mode.TitleScreen ∨ s.mode = Mode.GamePlay)
    (hstep : update_game s inp = some (s', bl)) : bl = [] := by
  obtain ⟨pl, tex, lvls, cur, mo⟩ := s
  rcases hm with hm | hm <;> cases hm <;>
    simp only [update_game] at hstep <;>
    (repeat' split at hstep) <;> cases hstep <;> rfl

/-- Witness for C5 (amended) at the initial state. -/
theorem c5_witness :
    (initState.mode = Mode.TitleScreen ∨ initState.mode = Mode.GamePlay) ∧
    ([] : List Blit) = [] :=
  ⟨Or.inl rfl, c5_no_blit_outside_endgame initState noInput initState [] (Or.inl rfl) rfl⟩

/-- C10: the step never mutates the player's velocity fields: `vx` and `vy`
are unchanged by `update_game` in every mode and for every input. -/
theorem c10_velocities_unchanged (s : GameState) (inp : Input)
    (s' : GameState) (bl : List Blit)
    (hstep : update_game s inp = some (s', bl)) :
    s'.player.vx = s.player.vx ∧ s'.player.vy = s.player.vy := by
  obtain ⟨pl, tex, lvls, cur, mo⟩ := s
  cases mo <;> simp only [update_game] at hstep <;>
    (repeat' split at hstep) <;> cases hstep <;> exact ⟨rfl, rfl⟩

/-- Witness for C10 at the initial state with no input. -/
theorem c10_witness :
    initState.player.vx = initState.player.vx ∧
    initState.player.vy = initState.player.vy :=
  c10_velocities_unchanged initState noInput initState [] rfl

/-- C1 counterexample: with the game's levels, a step from level 1 in which
the player touches a wall of the current level sets `current_level` to 0:
touching a static obstacle does change the level index. -/
theorem c1_cex :
    c1State.current_level = 1 ∧
    (level2.gamemap.any fun w =>
        rect_touching (movePlayer c1State.player.rect noInput) w.rect) = true ∧
    (update_game c1State noInput).map (fun p => p.1.current_level) = some 0 ∧
    (some 0 : Option Nat) ≠ some 1 :=
  ⟨rfl, rfl, rfl, by decide⟩

/-- C1 amended: with the game's levels, a step in which the player's moved
rect touches a wall of the current level sets `current_level` to 0 and
teleports the player to the fixed respawn (170, 500); the index is unchanged
only when it is already 0. -/
theorem c1_wall_resets_level (s : GameState) (inp : Input) (s' : GameState)
    (bl : List Blit) (lvl : Level)
    (hlev : s.levels = gameLevels)
    (hm : s.mode = Mode.GamePlay)
    (hget : s.levels.get? s.current_level = some lvl)
    (hhit : (lvl.gamemap.any fun w =>
        rect_touching (movePlayer s.player.rect inp) w.rect) = true)
    (hstep : update_game s inp = some (s', bl)) :
    s'.current_level = 0 ∧ s'.player.rect.x = 170 ∧ s'.player.rect.y = 500 := by
  obtain ⟨mx, my, hM⟩ := movePlayer_shape s.player.rect inp
  have hexit :
      rect_touching ⟨170, 500, s.player.rect.w, s.player.rect.h⟩ level1.exit = false := by
    simp only [rect_touching, level1, decide_eq_false_iff_not]
    intro h
    omega
  simp only [update_game, hm] at hstep
  rw [hget] at hstep
  simp only [hhit, if_true, hlev] at hstep
  rw [show gameLevels.get? 0 = some level1 from rfl] at hstep
  rw [hM] at hstep
  simp only [hexit] at hstep
  cases hstep
  exact ⟨rfl, rfl, rfl⟩

/-- Witness for C1 (amended): the concrete wall-touching step from `c1State`. -/
theorem c1_witness :
    c1Result.current_level = 0 ∧
    c1Result.player.rect.x = 170 ∧ c1Result.player.rect.y = 500 :=
  c1_wall_resets_level c1State noInput c1Result [] level2 rfl rfl rfl rfl rfl

/-- C2: in GamePlay with `current_level = i`, if the moved player rect touches
no wall of the current level and touches the current level's exit, the step
sets `current_level` to `i + 1` and resets the player's position to the next
level's spawn (`position`). -/
theorem c2_exit_advances_level (s : GameState) (inp : Input) (s' : GameState)
    (bl : List Blit) (lvl lvl2 : Level)
    (hm : s.mode = Mode.GamePlay)
    (hget : s.levels.get? s.current_level = some lvl)
    (hnowall : (lvl.gamemap.any fun w =>
        rect_touching (movePlayer s.player.rect inp) w.rect) = false)
    (hexit : rect_touching (movePlayer s.player.rect inp) lvl.exit = true)
    (hnext : s.levels.get? (s.current_level + 1) = some lvl2)
    (hstep : update_game s inp = some (s', bl)) :
    s'.current_level = s.current_level + 1 ∧
    s'.player.rect.x = lvl2.position.1 ∧ s'.player.rect.y = lvl2.position.2 := by
  simp only [update_game, hm] at hstep
  rw [hget] at hstep
  simp only [hnowall, Bool.false_eq_true, if_false] at hstep
  rw [hget] at hstep
  simp only [hexit, if_true] at hstep
  rw [hnext] at hstep
  cases hstep
  exact ⟨rfl, rfl, rfl⟩

/-- Witness for C2: the concrete exit-touching step from `c2State` on level 1. -/
theorem c2_witness :
    c2Result.current_level = c2State.current_level + 1 ∧
    c2Result.player.rect.x = level3.position.1 ∧
    c2Result.player.rect.y = level3.position.2 :=
  c2_exit_advances_level c2State noInput c2Result [] level2 level3
    rfl rfl rfl rfl rfl rfl

/-- C4: with the game's levels and the game's 11×11 player, at the end of any
completed step no wall of the then-current level is touching the player: a
wall contact holding before the step's collision response no longer holds
after it (the response teleports the body clear of all obstacles). -/
theorem c4_no_wall_overlap_after_step (s : GameState) (inp : Input)
    (s' : GameState) (bl : List Blit)
    (hlev : s.levels = gameLevels)
    (hm : s.mode = Mode.GamePlay)
    (hw : s.player.rect.w = 11) (hh : s.player.rect.h = 11)
    (hstep : update_game s inp = some (s', bl)) :
    ∀ lvl, s'.levels.get? s'.current_level = some lvl →
      ∀ w ∈ lvl.gamemap, rect_touching s'.player.rect w.rect = false := by
  obtain ⟨mx, my, hM⟩ := movePlayer_shape s.player.rect inp
  rw [hw, hh] at hM
  simp only [update_game, hm, hlev] at hstep
  rcases hg : gameLevels.get? s.current_level with _ | lvl0
  · rw [hg] at hstep; simp at hstep
  · rw [hg, hM] at hstep
    dsimp only at hstep
    by_cases hb : (lvl0.gamemap.any fun w =>
        rect_touching ⟨mx, my, 11, 11⟩ w.rect) = true
    · -- wall hit: teleport to (170, 500) on level 0
      simp only [hb, if_true] at hstep
      rw [show gameLevels.get? 0 = some level1 from rfl] at hstep
      simp only [show rect_touching ⟨170, 500, 11, 11⟩ level1.exit = false
                   from rfl, Bool.false_eq_true, if_false] at hstep
      cases hstep
      intro lvl hl
      rw [show gameLevels.get? 0 = some level1 from rfl] at hl
      cases hl
      dsimp only
      decide
    · rw [if_neg hb, if_neg hb, hg] at hstep
      dsimp only at hstep
      by_cases he : rect_touching ⟨mx, my, 11, 11⟩ lvl0.exit = true
      · -- exit touched: teleport to the next level's spawn
        rw [if_pos he] at hstep
        rcases hg2 : gameLevels.get? (s.current_level + 1) with _ | lvl2
        · rw [hg2] at hstep; simp at hstep
        · rw [hg2] at hstep
          cases hstep
          have hlt : s.current_level + 1 < 3 := by
            have h1 := (List.get?_eq_some.mp hg2).1
            simpa [gameLevels] using h1
          have hcase : s.current_level = 0 ∨ s.current_level = 1 := by omega
          rcases hcase with h0 | h0 <;> rw [h0] at hg2 ⊢
          · rw [show gameLevels.get? (0 + 1) = some level2 from rfl] at hg2
            cases hg2
            intro lvl hl
            rw [show gameLevels.get? (0 + 1) = some level2 from rfl] at hl
            cases hl
            dsimp only
            decide
          · rw [show gameLevels.get? (1 + 1) = some level3 from rfl] at hg2
            cases hg2
            intro lvl hl
            rw [show gameLevels.get? (1 + 1) = some level3 from rfl] at hl
            cases hl
            dsimp only
            decide
      · -- neither wall nor exit: the moved rect already touches no wall
        rw [if_neg he] at hstep
        cases hstep
        intro lvl hl
        rw [hg] at hl
        cases hl
        intro w hwmem
        rw [Bool.not_eq_true] at hb
        simp only [List.any_eq_false] at hb
        have hbw := hb w hwmem
        simp only [Bool.not_eq_true] at hbw
        exact hbw

/-- Witness for C4: one step from the initial gameplay state touches nothing,
and the top wall of `walls1` is not touching the player afterwards. -/
theorem c4_witness :
    rect_touching c4State.player.rect (⟨⟨0, 0, 269, 100⟩⟩ : Wall).rect = false :=
  c4_no_wall_overlap_after_step c4State noInput c4State [] rfl rfl rfl rfl rfl
    level1 rfl ⟨⟨0, 0, 269, 100⟩⟩ (by decide)

/-- C3: the claim (and spec section 4.6) is right about the intended driver,
but the shipped code's accumulator feed is dead (swallowed by the block
comment that disables drawing), contradicting the code's own
produce/consume comments: the live driver executes zero simulation steps
for every sequence of host ticks, and in particular 0, not
`⌊T / DT⌋ = 180`, steps at the concrete tick sequence `ticksExample`
(T = 3 s). -/
theorem c3_dead_driver_zero_steps :
    (∀ ts : List ℚ, run_ticks ts = (0, 0)) ∧
    (⌊ticksExample.sum / DT⌋ : ℤ) = 180 ∧
    ((run_ticks ticksExample).2 : ℤ) ≠ 180 := by
  have h0 : consume 0 = ((0 : ℚ), 0) := by
    rw [consume, dif_neg (by norm_num [DT])]
  have hall : ∀ ts : List ℚ, run_ticks ts = (0, 0) := by
    intro ts
    simp only [run_ticks]
    induction ts with
    | nil => rfl
    | cons t ts ih =>
      simp only [List.foldl_cons, tick, h0]
      exact ih
  refine ⟨hall, ?_, ?_⟩
  · have hsum : ticksExample.sum = 3 := by norm_num [ticksExample]
    have hdiv : (3 : ℚ) / DT = ((180 : ℤ) : ℚ) := by norm_num [DT]
    rw [hsum, hdiv, Int.floor_intCast]
  · rw [hall ticksExample]
    decide

end Game2
